import Mathlib

/-!
Verification of the simple_tasks HTTP service.

The development shallowly embeds the two source variants of the service
(`src/src/index.ts`, called `V1` below, and `src/unnamed/part_000`, called
`V2`). The relational store is a pair of lists with auto-increment
counters; handlers are pure functions from request data and store to a
response and a new store. Machine behaviour that lives outside the
repository (the jsonwebtoken library, the bcryptjs hasher) is modelled
from the spec and marked as such in the doc comment of the definition.
-/

namespace SimpleTasks

/-- Payload carried by an identity token: mirrors `JwtUserPayload` in both sources. -/
structure JwtUserPayload where
  id : Nat
  email : String
  deriving Repr, DecidableEq

/-- A task row, as produced by the Prisma `task` model. -/
structure Task where
  id : Nat
  userId : Nat
  title : String
  date : String
  isChecked : Bool
  deriving Repr, DecidableEq

/-- A user row, as produced by the Prisma `user` model. `password` stores the bcrypt digest. -/
structure User where
  id : Nat
  email : String
  password : String
  image : String
  deriving Repr, DecidableEq

/-- The relational store: user and task tables plus auto-increment id counters. -/
structure Store where
  users : List User
  tasks : List Task
  nextUserId : Nat
  nextTaskId : Nat
  deriving Repr, DecidableEq

/-- Embeds `prisma.user.findUnique({ where: { email } })`. -/
def findUserByEmail (s : Store) (email : String) : Option User :=
  s.users.find? (fun u => u.email == email)

/-- Embeds `prisma.user.findUnique({ where: { id } })`. -/
def findUserById (s : Store) (id : Nat) : Option User :=
  s.users.find? (fun u => u.id == id)

/-- Embeds the `include: { tasks: true }` relation: the tasks whose `userId` is `uid`. -/
def userTasks (s : Store) (uid : Nat) : List Task :=
  s.tasks.filter (fun t => t.userId == uid)

/-- Embeds `prisma.user.create({ data: { email, password, image } })`: the store
assigns the next free id. -/
def createUser (s : Store) (email password image : String) : User × Store :=
  let u : User := ⟨s.nextUserId, email, password, image⟩
  (u, { s with users := s.users ++ [u], nextUserId := s.nextUserId + 1 })

/-- Embeds `prisma.user.update({ where: { id }, data: { image } })`. -/
def updateUserImage (s : Store) (uid : Nat) (path : String) : Store :=
  { s with users := s.users.map (fun u => if u.id = uid then { u with image := path } else u) }

/-- Embeds `prisma.task.create({ data: { title, date, isChecked, userId } })`. -/
def createTask (s : Store) (uid : Nat) (title date : String) (isChecked : Bool) : Task × Store :=
  let t : Task := ⟨s.nextTaskId, uid, title, date, isChecked⟩
  (t, { s with tasks := s.tasks ++ [t], nextTaskId := s.nextTaskId + 1 })

/-- Embeds `prisma.task.findUnique({ where: { id } })`. -/
def findTaskById (s : Store) (id : Nat) : Option Task :=
  s.tasks.find? (fun t => t.id == id)

/-- A PATCH /tasks/:id body after schema validation: each field optional
(`undefined` is `none`). -/
structure PatchBody where
  title : Option String
  date : Option String
  isChecked : Option Bool
  deriving Repr, DecidableEq

/-- The conditional spreads `...(title !== undefined ? { title } : {})` (and likewise
for `date`, `isChecked`) applied to a task row. -/
def applyPatch (b : PatchBody) (t : Task) : Task :=
  { t with
    title := b.title.getD t.title
    date := b.date.getD t.date
    isChecked := b.isChecked.getD t.isChecked }

/-- Embeds `prisma.task.update({ where: { id }, data })`: returns the updated row,
or `none` when no row has that id (Prisma raises there; the handlers only call
it after a successful `findUnique`). -/
def prismaTaskUpdate (s : Store) (id : Nat) (b : PatchBody) : Option Task × Store :=
  match findTaskById s id with
  | none => (none, s)
  | some t =>
    (some (applyPatch b t),
     { s with tasks := s.tasks.map (fun x => if x.id = id then applyPatch b x else x) })

/-- Case folding used by the insensitive title match. -/
def lowerChars (s : String) : List Char := s.toLower.toList

/-- Substring containment on character lists (the empty needle is contained in
everything, as in SQL `LIKE` / Prisma `contains`). -/
def listContainsSub (hay needle : List Char) : Bool :=
  match hay with
  | [] => needle.isEmpty
  | c :: rest => needle.isPrefixOf (c :: rest) || listContainsSub rest needle

/-- Embeds Prisma `title: { contains: search, mode: 'insensitive' }`. -/
def containsCI (hay needle : String) : Bool :=
  listContainsSub (lowerChars hay) (lowerChars needle)

/-- The `where` object built by the GET /tasks handlers, as a predicate:
`userId` always, `date` exact when the filter is passed, insensitive substring
on `title` when the search filter is passed. -/
def taskWhere (uid : Nat) (date : Option String) (search : Option String) (t : Task) : Bool :=
  t.userId == uid
    && (match date with | none => true | some d => t.date == d)
    && (match search with | none => true | some q => containsCI t.title q)

/-- Embeds `prisma.task.findMany({ where })`. -/
def findManyTasks (s : Store) (uid : Nat) (date : Option String) (search : Option String) :
    List Task :=
  s.tasks.filter (taskWhere uid date search)

/-- JavaScript `authHeader.split(' ')`: split on every single space character,
keeping empty segments; the empty string splits to one empty segment. -/
def splitCharsOnSpace (cs : List Char) : List (List Char) :=
  match cs with
  | [] => [[]]
  | c :: rest =>
    let r := splitCharsOnSpace rest
    if c = ' ' then [] :: r
    else
      match r with
      | [] => [[c]]
      | g :: gs => (c :: g) :: gs

/-- String form of `splitCharsOnSpace`. -/
def splitOnSpace (s : String) : List String :=
  (splitCharsOnSpace s.toList).map (fun g => String.mk g)

/-- Embeds `authHeader?.split(' ')[1]` from the protected handlers: `none` when
the header is absent or has no second whitespace-separated token. -/
def extractToken (authHeader : Option String) : Option String :=
  authHeader.bind (fun h => (splitOnSpace h)[1]?)

/-- Embeds `getUserFromToken` from both sources. The external `jwt.verify` is a
parameter `jwtV`; a raised verification error is its `Except.error` result and
is mapped to `null` by the source's `try`/`catch`. The JavaScript `!token`
guard is falsy for both `undefined` and the empty string. -/
def getUserFromToken (jwtV : String → Except String JwtUserPayload)
    (token : Option String) : Option JwtUserPayload :=
  match token with
  | none => none
  | some tk =>
    if tk = "" then none
    else
      match jwtV tk with
      | Except.ok p => some p
      | Except.error _ => none

/-- Modelled from the spec: the external jsonwebtoken token content. A token
decodes to its claims (`id`, `email`, issued-at `iat`, expiry `exp`) plus the
secret it was signed with; the signature check succeeds exactly when that
secret equals the verifier's secret. -/
structure SignedToken where
  id : Nat
  email : String
  iat : Nat
  exp : Nat
  secret : String
  deriving Repr, DecidableEq

/-- Modelled from the spec: the external `jwt.verify(token, secret)`, a pure
function of the token, the secret and the current time. `decode` is the (also
external) base64 decoding of the compact token string; a string that does not
decode is malformed. Expiry uses the spec's boundary: a token whose expiry
equals "now" is already expired. A raised error is an `Except.error` result. -/
def jwtVerifySem (decode : String → Option SignedToken) (secret : String) (now : Nat)
    (tok : String) : Except String JwtUserPayload :=
  match decode tok with
  | none => Except.error "jwt malformed"
  | some st =>
    if st.secret ≠ secret then Except.error "invalid signature"
    else if st.exp ≤ now then Except.error "jwt expired"
    else Except.ok ⟨st.id, st.email⟩

/-- The hard-coded signing secret of both sources. -/
def JWT_SECRET : String := "supersecretkey"

/-- Modelled from the spec: the external bcryptjs `hash(password, 10)` — a
salted one-way digest. Represented abstractly as a version-tagged string built
from the salt and the input, which keeps the model executable and makes the
digest provably distinct from every plaintext (it is strictly longer). -/
def bcryptHash (salt : String) (plaintext : String) : String :=
  "$2b$10$" ++ salt ++ "$" ++ plaintext

/-- Response of a handler in the V1 variant (`src/src/index.ts`), which pairs
every error body with an HTTP status; the V2 variant reuses the same type with
status 200 on handler-produced errors. Status 422 is the framework's rejection
of a request that fails the declared body schema, 500 its conversion of an
uncaught store exception. -/
inductive HResp where
  | okTask (task : Task)
  | okTasks (tasks : List Task)
  | okProfile (email : String) (image : String) (total : Nat) (completed : Nat)
  | okMessage (message : String) (image : String)
  | okRegistered (message : String)
  | okToken (token : String)
  | err (code : Nat) (error : String)
  deriving Repr, DecidableEq

/-- A response with the status code erased: what C10 calls "the same success
payload or error message, differing only in how errors are encoded". -/
inductive ErasedResp where
  | okTask (task : Task)
  | okTasks (tasks : List Task)
  | okProfile (email : String) (image : String) (total : Nat) (completed : Nat)
  | okMessage (message : String) (image : String)
  | okRegistered (message : String)
  | okToken (token : String)
  | err (error : String)
  deriving Repr, DecidableEq

/-- Forgets the HTTP status of a response, keeping payload or error message. -/
def eraseCode : HResp → ErasedResp
  | .okTask t => .okTask t
  | .okTasks ts => .okTasks ts
  | .okProfile e i t c => .okProfile e i t c
  | .okMessage m i => .okMessage m i
  | .okRegistered m => .okRegistered m
  | .okToken tk => .okToken tk
  | .err _ e => .err e

/-- A JSON scalar, for request bodies before schema validation. -/
inductive JsonVal where
  | jstr (s : String)
  | jbool (b : Bool)
  | jnum (n : Int)
  | jnull
  deriving Repr, DecidableEq

/-- The raw body of POST /tasks before schema validation: each of the three
fields may be absent or of the wrong type. -/
structure RawCreateBody where
  title : Option JsonVal
  date : Option JsonVal
  isChecked : Option JsonVal
  deriving Repr, DecidableEq

/-- Reads a field as a string, failing on absence or any other type. -/
def asString : Option JsonVal → Option String
  | some (.jstr s) => some s
  | _ => none

/-- Reads a field as a boolean, failing on absence or any other type. -/
def asBool : Option JsonVal → Option Bool
  | some (.jbool b) => some b
  | _ => none

/-- The POST /tasks body after schema validation. -/
structure CreateBody where
  title : String
  date : String
  isChecked : Bool
  deriving Repr, DecidableEq

/-- Embeds the declared body schema
`t.Object({ title: t.String(), date: t.String(), isChecked: t.Boolean() })`,
which the framework checks before the handler runs. -/
def checkCreateSchema (b : RawCreateBody) : Option CreateBody :=
  match asString b.title, asString b.date, asBool b.isChecked with
  | some t, some d, some c => some ⟨t, d, c⟩
  | _, _, _ => none

/-- An uploaded multipart file as the handlers see it. -/
structure UploadFile where
  name : String
  contentType : String
  size : Nat
  deriving Repr, DecidableEq

/-- The content-type allow-list of the `t.File` schema. -/
def allowedImageTypes : List String := ["image/jpeg", "image/png", "image/gif"]

/-- The `maxSize: 5 * 1024 * 1024` bound of the `t.File` schema. -/
def imageMaxSize : Nat := 5 * 1024 * 1024

/-- Embeds the declared body schema
`t.Object({ image: t.File({ type: [...], maxSize: 5 * 1024 * 1024 }) })`:
the field must be present, of an allowed content type, and within the bound. -/
def checkImageSchema (f : Option UploadFile) : Option UploadFile :=
  match f with
  | none => none
  | some f =>
    if allowedImageTypes.contains f.contentType && f.size ≤ imageMaxSize then some f else none

/-- Embeds Node's `path.extname(name)`: the suffix from the last dot, empty
when there is no dot or the only dot is the leading character. -/
def extname (name : String) : String :=
  let rev := name.toList.reverse
  match rev.findIdx? (fun c => c = '.') with
  | none => ""
  | some i =>
    if i + 1 = rev.length then ""
    else String.mk ((rev.take (i + 1)).reverse)

/-- Embeds the upload filename interpolation: `user_${id}_${Date.now()}${ext}`. -/
def imageFilename (uid : Nat) (nowMs : Nat) (ext : String) : String :=
  "user_" ++ toString uid ++ "_" ++ toString nowMs ++ ext

/-- The register/login body after schema validation. -/
structure AuthBody where
  email : String
  password : String
  deriving Repr, DecidableEq

/-! The V1 variant, `src/src/index.ts`: differentiated statuses 400/401/404 on
handler-produced errors. Each endpoint composes the framework's schema
validation (where a schema is declared) with the handler body; the handler
performs the bearer-token check itself, first thing. -/
namespace V1

/-- The POST /tasks handler body after the auth check, lines 75-85 of
`src/src/index.ts`. The JavaScript guard `!title || !date` is falsy exactly on
the empty string once the schema has forced both to be strings, and the
`typeof isChecked !== 'boolean'` conjunct cannot fire after the schema. -/
def postTasksAuthed (u : JwtUserPayload) (b : CreateBody) (s : Store) : HResp × Store :=
  if b.title = "" || b.date = "" then (.err 400 "Invalid task data", s)
  else
    let ts := createTask s u.id b.title b.date b.isChecked
    (.okTask ts.1, ts.2)

/-- The POST /tasks endpoint: schema validation, then the handler with its
leading auth check (lines 70-85). -/
def postTasks (jwtV : String → Except String JwtUserPayload) (auth : Option String)
    (body : RawCreateBody) (s : Store) : HResp × Store :=
  match checkCreateSchema body with
  | none => (.err 422 "Invalid body", s)
  | some b =>
    match getUserFromToken jwtV (extractToken auth) with
    | none => (.err 401 "Unauthorized", s)
    | some u => postTasksAuthed u b s

/-- The GET /tasks handler body after the auth check, lines 109-114: the
JavaScript `if (date)` / `if (search)` guards drop a filter that is absent or
the empty string. -/
def getTasksAuthed (u : JwtUserPayload) (date search : Option String) (s : Store) :
    HResp × Store :=
  let dateF := if date.getD "" = "" then none else date
  let searchF := if search.getD "" = "" then none else search
  (.okTasks (findManyTasks s u.id dateF searchF), s)

/-- The GET /tasks endpoint, lines 104-114. The query schema (two optional
strings) accepts every query, so no validation stage appears. -/
def getTasks (jwtV : String → Except String JwtUserPayload) (auth : Option String)
    (date search : Option String) (s : Store) : HResp × Store :=
  match getUserFromToken jwtV (extractToken auth) with
  | none => (.err 401 "Unauthorized", s)
  | some u => getTasksAuthed u date search s

/-- The PATCH /tasks/:id handler body after the auth check, lines 139-151.
The route parameter is taken post `Number(params.id)` conversion. -/
def patchTaskAuthed (u : JwtUserPayload) (id : Nat) (b : PatchBody) (s : Store) :
    HResp × Store :=
  match findTaskById s id with
  | none => (.err 404 "Task not found", s)
  | some t =>
    if t.userId ≠ u.id then (.err 404 "Task not found", s)
    else
      match prismaTaskUpdate s id b with
      | (some t1, s1) => (.okTask t1, s1)
      | (none, s1) => (.err 500 "Internal error", s1)

/-- The PATCH /tasks/:id endpoint, lines 134-151. A body of three optional
typed fields is taken post schema validation. -/
def patchTask (jwtV : String → Except String JwtUserPayload) (auth : Option String)
    (id : Nat) (b : PatchBody) (s : Store) : HResp × Store :=
  match getUserFromToken jwtV (extractToken auth) with
  | none => (.err 401 "Unauthorized", s)
  | some u => patchTaskAuthed u id b s

/-- The GET /profile handler body after the auth check, lines 180-186. -/
def getProfileAuthed (u : JwtUserPayload) (s : Store) : HResp × Store :=
  match findUserById s u.id with
  | none => (.err 404 "User not found", s)
  | some usr =>
    let ts := userTasks s u.id
    (.okProfile usr.email usr.image ts.length (ts.filter (fun t => t.isChecked)).length, s)

/-- The GET /profile endpoint, lines 175-186. -/
def getProfile (jwtV : String → Except String JwtUserPayload) (auth : Option String)
    (s : Store) : HResp × Store :=
  match getUserFromToken jwtV (extractToken auth) with
  | none => (.err 401 "Unauthorized", s)
  | some u => getProfileAuthed u s

/-- The POST /profile/image handler body after the auth check, lines 208-232
of `src/src/index.ts`: the `!file.name` falsy guard, the file write under the
name derived from the verified user id and the current time, and the
user-image update. The third component of the result is the log of relative
paths written to file storage. -/
def postProfileImageAuthed (u : JwtUserPayload) (f : UploadFile) (nowMs : Nat) (s : Store) :
    HResp × Store × List String :=
  if f.name = "" then (.err 400 "No image file uploaded", s, [])
  else
    let rel := "uploads/" ++ imageFilename u.id nowMs (extname f.name)
    (.okMessage "Image updated" rel, updateUserImage s u.id rel, [rel])

/-- The POST /profile/image endpoint, lines 202-245: `t.File` schema
validation, then the handler with its auth check, the `!file || !file.name`
guard, the file write and the user-image update. The third component of the
result is the log of relative paths written to file storage. -/
def postProfileImage (jwtV : String → Except String JwtUserPayload) (auth : Option String)
    (file : Option UploadFile) (nowMs : Nat) (s : Store) : HResp × Store × List String :=
  match checkImageSchema file with
  | none => (.err 422 "Invalid body", s, [])
  | some f =>
    match getUserFromToken jwtV (extractToken auth) with
    | none => (.err 401 "Unauthorized", s, [])
    | some u =>
      if f.name = "" then (.err 400 "No image file uploaded", s, [])
      else
        let rel := "uploads/" ++ imageFilename u.id nowMs (extname f.name)
        (.okMessage "Image updated" rel, updateUserImage s u.id rel, [rel])

end V1

/-! The V2 variant, `src/unnamed/part_000`: handler-produced errors come back
as a 200 response whose body is the error object. Framework-level outcomes
(schema rejection, uncaught store exception) keep their framework statuses. -/
namespace V2

/-- The POST /register handler, lines 37-44 of `src/unnamed/part_000`. The
bcrypt salt drawn for this call is passed explicitly. -/
def register (salt : String) (b : AuthBody) (s : Store) : HResp × Store :=
  if b.email = "" || b.password = "" then (.err 200 "Email and password required", s)
  else
    match findUserByEmail s b.email with
    | some _ => (.err 200 "User exists", s)
    | none =>
      let us := createUser s b.email (bcryptHash salt b.password) ""
      (.okRegistered "Registered successfully", us.2)

/-- The POST /tasks handler body after the auth check, lines 76-86. -/
def postTasksAuthed (u : JwtUserPayload) (b : CreateBody) (s : Store) : HResp × Store :=
  if b.title = "" || b.date = "" then (.err 200 "Invalid task data", s)
  else
    let ts := createTask s u.id b.title b.date b.isChecked
    (.okTask ts.1, ts.2)

/-- The POST /tasks endpoint, lines 71-86. -/
def postTasks (jwtV : String → Except String JwtUserPayload) (auth : Option String)
    (body : RawCreateBody) (s : Store) : HResp × Store :=
  match checkCreateSchema body with
  | none => (.err 422 "Invalid body", s)
  | some b =>
    match getUserFromToken jwtV (extractToken auth) with
    | none => (.err 200 "Unauthorized", s)
    | some u => postTasksAuthed u b s

/-- The GET /tasks handler body after the auth check, lines 109-114. -/
def getTasksAuthed (u : JwtUserPayload) (date search : Option String) (s : Store) :
    HResp × Store :=
  let dateF := if date.getD "" = "" then none else date
  let searchF := if search.getD "" = "" then none else search
  (.okTasks (findManyTasks s u.id dateF searchF), s)

/-- The GET /tasks endpoint, lines 104-114. -/
def getTasks (jwtV : String → Except String JwtUserPayload) (auth : Option String)
    (date search : Option String) (s : Store) : HResp × Store :=
  match getUserFromToken jwtV (extractToken auth) with
  | none => (.err 200 "Unauthorized", s)
  | some u => getTasksAuthed u date search s

/-- The PATCH /tasks/:id handler body after the auth check, lines 139-151. -/
def patchTaskAuthed (u : JwtUserPayload) (id : Nat) (b : PatchBody) (s : Store) :
    HResp × Store :=
  match findTaskById s id with
  | none => (.err 200 "Task not found", s)
  | some t =>
    if t.userId ≠ u.id then (.err 200 "Task not found", s)
    else
      match prismaTaskUpdate s id b with
      | (some t1, s1) => (.okTask t1, s1)
      | (none, s1) => (.err 500 "Internal error", s1)

/-- The PATCH /tasks/:id endpoint, lines 134-151. -/
def patchTask (jwtV : String → Except String JwtUserPayload) (auth : Option String)
    (id : Nat) (b : PatchBody) (s : Store) : HResp × Store :=
  match getUserFromToken jwtV (extractToken auth) with
  | none => (.err 200 "Unauthorized", s)
  | some u => patchTaskAuthed u id b s

/-- The GET /profile handler body after the auth check, lines 179-185. -/
def getProfileAuthed (u : JwtUserPayload) (s : Store) : HResp × Store :=
  match findUserById s u.id with
  | none => (.err 200 "User not found", s)
  | some usr =>
    let ts := userTasks s u.id
    (.okProfile usr.email usr.image ts.length (ts.filter (fun t => t.isChecked)).length, s)

/-- The GET /profile endpoint, lines 174-185. -/
def getProfile (jwtV : String → Except String JwtUserPayload) (auth : Option String)
    (s : Store) : HResp × Store :=
  match getUserFromToken jwtV (extractToken auth) with
  | none => (.err 200 "Unauthorized", s)
  | some u => getProfileAuthed u s

end V2

/-- Fixture: a verifier that accepts exactly the string "tok" as user 1. -/
def jwtVok : String → Except String JwtUserPayload :=
  fun tk => if tk = "tok" then Except.ok ⟨1, "a@b"⟩ else Except.error "bad signature"

/-- Fixture: a well-formed bearer header carrying the accepted token. -/
def authOk : Option String := some "Bearer tok"

/-- Fixture: a store with no rows. -/
def emptyStore : Store := ⟨[], [], 1, 1⟩

/-- Fixture: a store holding the spec's example task, owned by user 1. -/
def storeEx : Store := ⟨[], [⟨5, 1, "t", "2024-01-01", false⟩], 1, 6⟩

/-- Fixture: a store holding one task of user 1 whose date is "x". -/
def storeCex : Store := ⟨[], [⟨1, 1, "t", "x", false⟩], 1, 2⟩

/-- Fixture: a decoder under which exactly the string "tok" is a well-formed
token, signed with the real secret, issued at 0 and expiring at 5. -/
def decodeFix : String → Option SignedToken :=
  fun s => if s = "tok" then some ⟨1, "a@b", 0, 5, "supersecretkey"⟩ else none

/-- Fixture: a store with user 1 and three of their tasks, two checked. -/
def storeProfile : Store :=
  ⟨[⟨1, "a@b", "h", "img"⟩],
   [⟨1, 1, "t1", "d", true⟩, ⟨2, 1, "t2", "d", true⟩, ⟨3, 1, "t3", "d", false⟩], 2, 4⟩

end SimpleTasks

namespace SimpleTasks

/-- The JavaScript split keeps empty segments: a doubled space yields the
empty string as second piece (which the falsy token guard then rejects). -/
theorem extractToken_double_space : extractToken (some "Bearer  tok") = some "" := by decide

/-- A header without a space has no second piece. -/
theorem extractToken_no_space : extractToken (some "tok") = none := by decide

/-- C1: for an authenticated caller, PATCH /tasks/:id yields one and the same
Not-Found outcome — status 404 with error "Task not found", store unchanged —
both when no task has the requested id and when a task has it but is owned by
a different user; that outcome is distinct from the Unauthorized one. -/
theorem patch_not_found_indistinguishable
    (jwtV : String → Except String JwtUserPayload) (auth : Option String)
    (u : JwtUserPayload) (hu : getUserFromToken jwtV (extractToken auth) = some u)
    (id : Nat) (b : PatchBody) (s : Store)
    (h : findTaskById s id = none ∨ ∃ t, findTaskById s id = some t ∧ t.userId ≠ u.id) :
    V1.patchTask jwtV auth id b s = (HResp.err 404 "Task not found", s) ∧
      HResp.err 404 "Task not found" ≠ HResp.err 401 "Unauthorized" := by
  refine ⟨?_, by decide⟩
  rcases h with h | ⟨t, ht, hne⟩
  · simp [V1.patchTask, V1.patchTaskAuthed, hu, h]
  · simp [V1.patchTask, V1.patchTaskAuthed, hu, ht, hne]

/-- Witness for `patch_not_found_indistinguishable`: user 1 patching the
missing task id 9 in the empty store. -/
theorem patch_not_found_indistinguishable_witness :
    getUserFromToken jwtVok (extractToken authOk) = some ⟨1, "a@b"⟩ ∧
      V1.patchTask jwtVok authOk 9 ⟨none, none, some true⟩ emptyStore
        = (HResp.err 404 "Task not found", emptyStore) := by
  refine ⟨by decide, ?_⟩
  exact (patch_not_found_indistinguishable jwtVok authOk ⟨1, "a@b"⟩ (by decide) 9
    ⟨none, none, some true⟩ emptyStore (Or.inl (by decide))).1

/-- C3: for an authenticated caller patching an owned task, the endpoint
returns the merged task and persists it in place; the merge takes exactly the
fields present in the body and keeps the prior value of every absent field,
never touching `id` or `userId`; tasks with a different id stay in the store. -/
theorem patch_partial_update
    (jwtV : String → Except String JwtUserPayload) (auth : Option String)
    (u : JwtUserPayload) (hu : getUserFromToken jwtV (extractToken auth) = some u)
    (id : Nat) (b : PatchBody) (s : Store) (t : Task)
    (ht : findTaskById s id = some t) (hown : t.userId = u.id) :
    V1.patchTask jwtV auth id b s =
      (HResp.okTask (applyPatch b t),
       { s with tasks := s.tasks.map (fun x => if x.id = id then applyPatch b x else x) }) ∧
    (applyPatch b t).id = t.id ∧
    (applyPatch b t).userId = t.userId ∧
    (applyPatch b t).title = b.title.getD t.title ∧
    (applyPatch b t).date = b.date.getD t.date ∧
    (applyPatch b t).isChecked = b.isChecked.getD t.isChecked ∧
    (∀ x ∈ s.tasks, x.id ≠ id → x ∈ (V1.patchTask jwtV auth id b s).2.tasks) := by
  have hmain : V1.patchTask jwtV auth id b s =
      (HResp.okTask (applyPatch b t),
       { s with tasks := s.tasks.map (fun x => if x.id = id then applyPatch b x else x) }) := by
    simp [V1.patchTask, V1.patchTaskAuthed, prismaTaskUpdate, hu, ht, hown]
  refine ⟨hmain, rfl, rfl, rfl, rfl, rfl, ?_⟩
  intro x hx hne
  rw [hmain]
  exact List.mem_map.mpr ⟨x, hx, by simp [hne]⟩

/-- Witness for `patch_partial_update`: the spec's example — patching only
`isChecked` to true on the stored task `{title "t", date "2024-01-01",
isChecked false}` keeps title and date and flips the flag. -/
theorem patch_partial_update_witness :
    findTaskById storeEx 5 = some ⟨5, 1, "t", "2024-01-01", false⟩ ∧
      V1.patchTask jwtVok authOk 5 ⟨none, none, some true⟩ storeEx
        = (HResp.okTask ⟨5, 1, "t", "2024-01-01", true⟩,
           ⟨[], [⟨5, 1, "t", "2024-01-01", true⟩], 1, 6⟩) := by
  refine ⟨by decide, ?_⟩
  rw [(patch_partial_update jwtVok authOk ⟨1, "a@b"⟩ (by decide) 5 ⟨none, none, some true⟩
    storeEx ⟨5, 1, "t", "2024-01-01", false⟩ (by decide) rfl).1]
  decide

/-- The GET /tasks `where` predicate after the handler's truthiness guards:
dropping an absent-or-empty filter is the same as requiring membership,
ownership, an exact date match when the date filter is nonempty, and an
insensitive substring match when the search filter is nonempty. -/
theorem taskWhere_guarded_iff (uid : Nat) (date search : Option String) (t : Task) :
    taskWhere uid (if date.getD "" = "" then none else date)
        (if search.getD "" = "" then none else search) t = true ↔
      t.userId = uid ∧ (date.getD "" = "" ∨ t.date = date.getD "") ∧
        (search.getD "" = "" ∨ containsCI t.title (search.getD "") = true) := by
  rcases date with _ | d <;> rcases search with _ | q
  · simp [taskWhere]
  · by_cases hq : q = "" <;> simp [taskWhere, hq]
  · by_cases hd : d = "" <;> simp [taskWhere, hd]
  · by_cases hd : d = "" <;> by_cases hq : q = "" <;> simp [taskWhere, hd, hq, and_assoc]

/-- C2 (amended): for an authenticated caller, GET /tasks returns, in store
order, exactly the caller's own tasks that match every supplied nonempty
filter — exact date match, case-insensitive substring title match, composed
with AND; a filter supplied as the empty string is ignored like an absent one,
and a task of another user is never returned. -/
theorem list_tasks_scoped_filtered
    (jwtV : String → Except String JwtUserPayload) (auth : Option String)
    (u : JwtUserPayload) (hu : getUserFromToken jwtV (extractToken auth) = some u)
    (date search : Option String) (s : Store) :
    ∃ ts, V1.getTasks jwtV auth date search s = (HResp.okTasks ts, s) ∧
      ts.Sublist s.tasks ∧
      ∀ t : Task, t ∈ ts ↔ t ∈ s.tasks ∧ t.userId = u.id ∧
        (date.getD "" = "" ∨ t.date = date.getD "") ∧
        (search.getD "" = "" ∨ containsCI t.title (search.getD "") = true) := by
  refine ⟨findManyTasks s u.id (if date.getD "" = "" then none else date)
      (if search.getD "" = "" then none else search), ?_, ?_, ?_⟩
  · simp [V1.getTasks, V1.getTasksAuthed, hu]
  · exact List.filter_sublist _
  · intro t
    rw [findManyTasks, List.mem_filter, taskWhere_guarded_iff]

/-- Witness for `list_tasks_scoped_filtered`: listing with a nonempty date
filter over the example store returns exactly the matching owned task. -/
theorem list_tasks_scoped_filtered_witness :
    getUserFromToken jwtVok (extractToken authOk) = some ⟨1, "a@b"⟩ ∧
      ∃ ts, V1.getTasks jwtVok authOk (some "x") none storeCex = (HResp.okTasks ts, storeCex) ∧
        ts.Sublist storeCex.tasks ∧
        ∀ t : Task, t ∈ ts ↔ t ∈ storeCex.tasks ∧ t.userId = 1 ∧
          ((some "x").getD "" = "" ∨ t.date = (some "x").getD "") ∧
          ((none : Option String).getD "" = "" ∨
            containsCI t.title ((none : Option String).getD "") = true) :=
  ⟨by decide, list_tasks_scoped_filtered jwtVok authOk ⟨1, "a@b"⟩ (by decide)
    (some "x") none storeCex⟩

/-- C2, as stated, fails on an empty-string date filter: the supplied filter
"" is dropped by the handler's `if (date)` truthiness guard, so the caller's
task with date "x" is returned even though its date is not equal to the
supplied filter. -/
theorem list_tasks_empty_filter_cex :
    V1.getTasks jwtVok authOk (some "") none storeCex
      = (HResp.okTasks [⟨1, 1, "t", "x", false⟩], storeCex) ∧
    ("x" : String) ≠ "" := by decide

/-- C4 (amended): on every request whose body passes the declared schema, each
protected endpoint takes the token as the second space-separated piece of the
Authorization header (`extractToken`) and, when the header is absent, carries
no such piece, or the token fails verification, answers 401 Unauthorized with
the store untouched and nothing written to file storage — before any handler
logic or store access; when verification succeeds, each of the five handlers
— POST /tasks, GET /tasks, PATCH /tasks/:id, GET /profile, and
POST /profile/image — runs as its body applied to the verified identity. -/
theorem auth_gate (jwtV : String → Except String JwtUserPayload) (auth : Option String) :
    (getUserFromToken jwtV (extractToken auth) = none →
      (∀ body b s, checkCreateSchema body = some b →
        V1.postTasks jwtV auth body s = (HResp.err 401 "Unauthorized", s)) ∧
      (∀ date search s,
        V1.getTasks jwtV auth date search s = (HResp.err 401 "Unauthorized", s)) ∧
      (∀ id pb s, V1.patchTask jwtV auth id pb s = (HResp.err 401 "Unauthorized", s)) ∧
      (∀ s, V1.getProfile jwtV auth s = (HResp.err 401 "Unauthorized", s)) ∧
      (∀ file f nowMs s, checkImageSchema file = some f →
        V1.postProfileImage jwtV auth file nowMs s = (HResp.err 401 "Unauthorized", s, []))) ∧
    (∀ u, getUserFromToken jwtV (extractToken auth) = some u →
      (∀ body b s, checkCreateSchema body = some b →
        V1.postTasks jwtV auth body s = V1.postTasksAuthed u b s) ∧
      (∀ date search s,
        V1.getTasks jwtV auth date search s = V1.getTasksAuthed u date search s) ∧
      (∀ id pb s, V1.patchTask jwtV auth id pb s = V1.patchTaskAuthed u id pb s) ∧
      (∀ s, V1.getProfile jwtV auth s = V1.getProfileAuthed u s) ∧
      (∀ file f nowMs s, checkImageSchema file = some f →
        V1.postProfileImage jwtV auth file nowMs s
          = V1.postProfileImageAuthed u f nowMs s)) := by
  constructor
  · intro h
    refine ⟨?_, ?_, ?_, ?_, ?_⟩
    · intro body b s hb
      simp [V1.postTasks, hb, h]
    · intro date search s
      simp [V1.getTasks, h]
    · intro id pb s
      simp [V1.patchTask, h]
    · intro s
      simp [V1.getProfile, h]
    · intro file f nowMs s hf
      simp [V1.postProfileImage, hf, h]
  · intro u h
    refine ⟨?_, ?_, ?_, ?_, ?_⟩
    · intro body b s hb
      simp [V1.postTasks, hb, h]
    · intro date search s
      simp [V1.getTasks, h]
    · intro id pb s
      simp [V1.patchTask, h]
    · intro s
      simp [V1.getProfile, h]
    · intro file f nowMs s hf
      simp [V1.postProfileImage, V1.postProfileImageAuthed, hf, h]

/-- Witness for `auth_gate`: a bearer header with an unverifiable token is
turned away from GET /tasks with 401 and an unchanged empty store. -/
theorem auth_gate_witness :
    getUserFromToken jwtVok (extractToken (some "Bearer wrong")) = none ∧
      V1.getTasks jwtVok (some "Bearer wrong") none none emptyStore
        = (HResp.err 401 "Unauthorized", emptyStore) := by
  refine ⟨by decide, ?_⟩
  exact ((auth_gate jwtVok (some "Bearer wrong")).1 (by decide)).2.1 none none emptyStore

/-- C4, as stated, fails when the body also fails the declared schema: the
framework validates the body before the handler runs, so POST /tasks with an
absent Authorization header and a body missing `isChecked` is answered with
the schema-validation outcome, not the Unauthorized one. -/
theorem auth_gate_schema_first_cex :
    V1.postTasks jwtVok none ⟨some (.jstr "t"), some (.jstr "d"), none⟩ emptyStore
      = (HResp.err 422 "Invalid body", emptyStore) ∧
    HResp.err 422 "Invalid body" ≠ HResp.err 401 "Unauthorized" := by decide

/-- C5: with the external verifier modelled from the spec, `getUserFromToken`
is total — the `try`/`catch` maps every verifier error to `null`, so no
exception reaches the caller — and returns an identity exactly when a token
string is present, nonempty, decodes, carries the server's secret and has not
yet expired, the identity then being the decoded `{id, email}`; in every other
case (absent or empty token, malformed, wrong signature, expired) it returns
`none`, and a token whose expiry equals the current time is already expired. -/
theorem getUserFromToken_characterization
    (decode : String → Option SignedToken) (now : Nat) (token : Option String) :
    (∀ p, getUserFromToken (jwtVerifySem decode JWT_SECRET now) token = some p ↔
      ∃ tk st, token = some tk ∧ tk ≠ "" ∧ decode tk = some st ∧
        st.secret = JWT_SECRET ∧ now < st.exp ∧ p = ⟨st.id, st.email⟩) ∧
    (∀ tk st, token = some tk → decode tk = some st → st.exp = now →
      getUserFromToken (jwtVerifySem decode JWT_SECRET now) token = none) := by
  constructor
  · intro p
    constructor
    · intro h
      rcases token with _ | tk
      · simp [getUserFromToken] at h
      · by_cases he : tk = ""
        · simp [getUserFromToken, he] at h
        · rcases hdec : decode tk with _ | st
          · simp [getUserFromToken, jwtVerifySem, he, hdec] at h
          · by_cases hsec : st.secret = JWT_SECRET
            · by_cases hexp : st.exp ≤ now
              · simp [getUserFromToken, jwtVerifySem, he, hdec, hsec, hexp] at h
              · simp [getUserFromToken, jwtVerifySem, he, hdec, hsec, hexp] at h
                exact ⟨tk, st, rfl, he, hdec, hsec, by omega, h.symm⟩
            · simp [getUserFromToken, jwtVerifySem, he, hdec, hsec] at h
    · rintro ⟨tk, st, htk, he, hdec, hsec, hexp, hp⟩
      subst htk hp
      simp [getUserFromToken, jwtVerifySem, he, hdec, hsec, show ¬ st.exp ≤ now by omega]
  · intro tk st htk hdec hexp
    subst htk
    by_cases he : tk = ""
    · simp [getUserFromToken, he]
    · by_cases hsec : st.secret = JWT_SECRET <;>
        simp [getUserFromToken, jwtVerifySem, he, hdec, hsec, hexp]

/-- Witness for `getUserFromToken_characterization`: a well-signed token whose
expiry equals the current time verifies to `none`. -/
theorem getUserFromToken_characterization_witness :
    decodeFix "tok" = some ⟨1, "a@b", 0, 5, "supersecretkey"⟩ ∧
      getUserFromToken (jwtVerifySem decodeFix JWT_SECRET 5) (some "tok") = none := by
  refine ⟨by decide, ?_⟩
  exact (getUserFromToken_characterization decodeFix 5 (some "tok")).2 "tok"
    ⟨1, "a@b", 0, 5, "supersecretkey"⟩ rfl (by decide) rfl

/-- C6: for an authenticated caller, POST /tasks answers with a validation
outcome and an unchanged store when the body misses a field or types one
wrongly (schema rejection, 422) or when the title or date is the empty string
(handler rejection, 400 "Invalid task data"); when title and date are
nonempty strings and isChecked a genuine boolean, it appends exactly one new
task whose `userId` is the caller's id and whose title, date and isChecked
are the request's values, and returns it. -/
theorem create_task_validation_and_success
    (jwtV : String → Except String JwtUserPayload) (auth : Option String)
    (u : JwtUserPayload) (hu : getUserFromToken jwtV (extractToken auth) = some u)
    (body : RawCreateBody) (s : Store) :
    (checkCreateSchema body = none →
      V1.postTasks jwtV auth body s = (HResp.err 422 "Invalid body", s)) ∧
    (∀ b, checkCreateSchema body = some b → (b.title = "" ∨ b.date = "") →
      V1.postTasks jwtV auth body s = (HResp.err 400 "Invalid task data", s)) ∧
    (∀ b, checkCreateSchema body = some b → b.title ≠ "" → b.date ≠ "" →
      V1.postTasks jwtV auth body s =
        (HResp.okTask ⟨s.nextTaskId, u.id, b.title, b.date, b.isChecked⟩,
         { s with
             tasks := s.tasks ++ [⟨s.nextTaskId, u.id, b.title, b.date, b.isChecked⟩],
             nextTaskId := s.nextTaskId + 1 })) := by
  refine ⟨?_, ?_, ?_⟩
  · intro hb
    simp [V1.postTasks, hb]
  · intro b hb hbad
    rcases hbad with hbad | hbad <;>
      simp [V1.postTasks, V1.postTasksAuthed, hu, hb, hbad]
  · intro b hb ht hd
    simp [V1.postTasks, V1.postTasksAuthed, createTask, hu, hb, ht, hd]

/-- Witness for `create_task_validation_and_success`: creating
`{title "t", date "d", isChecked true}` in the empty store as user 1 yields a
task owned by user 1 with those values. -/
theorem create_task_validation_and_success_witness :
    getUserFromToken jwtVok (extractToken authOk) = some ⟨1, "a@b"⟩ ∧
      checkCreateSchema ⟨some (.jstr "t"), some (.jstr "d"), some (.jbool true)⟩
        = some ⟨"t", "d", true⟩ ∧
      V1.postTasks jwtVok authOk ⟨some (.jstr "t"), some (.jstr "d"), some (.jbool true)⟩
          emptyStore
        = (HResp.okTask ⟨1, 1, "t", "d", true⟩, ⟨[], [⟨1, 1, "t", "d", true⟩], 1, 2⟩) := by
  refine ⟨by decide, by decide, ?_⟩
  rw [(create_task_validation_and_success jwtVok authOk ⟨1, "a@b"⟩ (by decide)
    ⟨some (.jstr "t"), some (.jstr "d"), some (.jbool true)⟩ emptyStore).2.2
    ⟨"t", "d", true⟩ (by decide) (by decide) (by decide)]
  decide

/-- C7: POST /profile/image turns away a file whose content type is outside
the allow-list {jpeg, png, gif} or whose size exceeds 5 MiB at the schema
stage — store untouched, nothing written to file storage; an accepted upload
from an authenticated caller writes exactly one file and points the caller's
`image` field at its returned relative path. -/
theorem image_upload_validation
    (jwtV : String → Except String JwtUserPayload) (auth : Option String)
    (f : UploadFile) (nowMs : Nat) (s : Store) :
    (¬ (allowedImageTypes.contains f.contentType = true ∧ f.size ≤ imageMaxSize) →
      V1.postProfileImage jwtV auth (some f) nowMs s = (HResp.err 422 "Invalid body", s, [])) ∧
    (∀ u, getUserFromToken jwtV (extractToken auth) = some u →
      allowedImageTypes.contains f.contentType = true → f.size ≤ imageMaxSize → f.name ≠ "" →
      V1.postProfileImage jwtV auth (some f) nowMs s =
        (HResp.okMessage "Image updated" ("uploads/" ++ imageFilename u.id nowMs (extname f.name)),
         updateUserImage s u.id ("uploads/" ++ imageFilename u.id nowMs (extname f.name)),
         ["uploads/" ++ imageFilename u.id nowMs (extname f.name)])) := by
  constructor
  · intro hbad
    have : checkImageSchema (some f) = none := by
      simp only [checkImageSchema]
      rw [if_neg]
      simp only [Bool.and_eq_true, decide_eq_true_eq]
      exact hbad
    simp [V1.postProfileImage, this]
  · intro u hu hty hsz hname
    have : checkImageSchema (some f) = some f := by
      simp only [checkImageSchema]
      rw [if_pos]
      simp only [Bool.and_eq_true, decide_eq_true_eq]
      exact ⟨hty, hsz⟩
    simp [V1.postProfileImage, this, hu, hname]

/-- Witness for `image_upload_validation`: a 6 MiB PNG is rejected at the
schema stage with the store unchanged and no file written. -/
theorem image_upload_validation_witness :
    ¬ (allowedImageTypes.contains "image/png" = true ∧ 6 * 1024 * 1024 ≤ imageMaxSize) ∧
      V1.postProfileImage jwtVok authOk (some ⟨"a.png", "image/png", 6 * 1024 * 1024⟩) 7
          emptyStore
        = (HResp.err 422 "Invalid body", emptyStore, []) := by
  refine ⟨by decide, ?_⟩
  exact (image_upload_validation jwtVok authOk ⟨"a.png", "image/png", 6 * 1024 * 1024⟩ 7
    emptyStore).1 (by decide)

/-- Appending to a list in which `find?` fails continues the search in the
appended part. -/
theorem find?_append_of_none {α : Type} (p : α → Bool) (l1 l2 : List α)
    (h : l1.find? p = none) : (l1 ++ l2).find? p = l2.find? p := by
  induction l1 with
  | nil => simp
  | cons a t ih =>
    rw [List.find?_eq_none] at h
    have ha : ¬ p a = true := h a (List.mem_cons_self a t)
    rw [List.cons_append, List.find?_cons_of_neg _ ha]
    exact ih (List.find?_eq_none.mpr (fun x hx => h x (List.mem_cons_of_mem a hx)))

/-- The length of the modelled bcrypt digest: strictly longer than its input. -/
theorem bcryptHash_length (salt plaintext : String) :
    (bcryptHash salt plaintext).length = 8 + salt.length + plaintext.length := by
  have h7 : ("$2b$10$" : String).length = 7 := by decide
  have h1 : ("$" : String).length = 1 := by decide
  simp [bcryptHash, String.length_append, h7, h1]
  omega

/-- C8 (amended): for a nonempty email and nonempty passwords, starting from a
store holding no user with that email, the first POST /register succeeds and
stores a bcrypt digest different from the submitted plaintext; a second
POST /register with the same email answers the Conflict body
{error: "User exists"} and leaves the store exactly as the first left it. -/
theorem register_twice_conflict
    (salt1 salt2 : String) (email pw1 pw2 : String)
    (he : email ≠ "") (hp1 : pw1 ≠ "") (hp2 : pw2 ≠ "")
    (s : Store) (hfresh : findUserByEmail s email = none) :
    V2.register salt1 ⟨email, pw1⟩ s =
      (HResp.okRegistered "Registered successfully",
       { s with users := s.users ++ [⟨s.nextUserId, email, bcryptHash salt1 pw1, ""⟩],
                nextUserId := s.nextUserId + 1 }) ∧
    bcryptHash salt1 pw1 ≠ pw1 ∧
    V2.register salt2 ⟨email, pw2⟩
        { s with users := s.users ++ [⟨s.nextUserId, email, bcryptHash salt1 pw1, ""⟩],
                 nextUserId := s.nextUserId + 1 } =
      (HResp.err 200 "User exists",
       { s with users := s.users ++ [⟨s.nextUserId, email, bcryptHash salt1 pw1, ""⟩],
                nextUserId := s.nextUserId + 1 }) := by
  refine ⟨?_, ?_, ?_⟩
  · simp [V2.register, createUser, he, hp1, hfresh]
  · intro hcontra
    have := congrArg String.length hcontra
    rw [bcryptHash_length] at this
    omega
  · have hfound : findUserByEmail
        { s with users := s.users ++ [⟨s.nextUserId, email, bcryptHash salt1 pw1, ""⟩],
                 nextUserId := s.nextUserId + 1 } email
        = some ⟨s.nextUserId, email, bcryptHash salt1 pw1, ""⟩ := by
      unfold findUserByEmail at hfresh ⊢
      rw [find?_append_of_none _ _ _ hfresh]
      simp
    simp [V2.register, he, hp2, hfound]

/-- Witness for `register_twice_conflict`: registering "a@b" twice in the
empty store — success then the Conflict body, the digest not the plaintext. -/
theorem register_twice_conflict_witness :
    V2.register "s1" ⟨"a@b", "pw"⟩ emptyStore =
      (HResp.okRegistered "Registered successfully",
       ⟨[⟨1, "a@b", bcryptHash "s1" "pw", ""⟩], [], 2, 1⟩) ∧
    bcryptHash "s1" "pw" ≠ "pw" ∧
    V2.register "s2" ⟨"a@b", "pw"⟩ ⟨[⟨1, "a@b", bcryptHash "s1" "pw", ""⟩], [], 2, 1⟩ =
      (HResp.err 200 "User exists", ⟨[⟨1, "a@b", bcryptHash "s1" "pw", ""⟩], [], 2, 1⟩) :=
  register_twice_conflict "s1" "s2" "a@b" "pw" "pw" (by decide) (by decide) (by decide)
    emptyStore (by decide)

/-- C8, as stated, fails at the empty email: the handler's required-field
guard rejects the first attempt, so registering that email does not succeed
on the first attempt, and no Conflict ever arises. -/
theorem register_empty_email_cex :
    V2.register "s1" ⟨"", "pw"⟩ emptyStore
      = (HResp.err 200 "Email and password required", emptyStore) ∧
    HResp.err 200 "Email and password required"
      ≠ HResp.okRegistered "Registered successfully" := by decide

/-- C9: for an authenticated caller whose id resolves to a stored user,
GET /profile answers that user's email and image together with stats counting
all of the user's tasks and those with isChecked true; when the id does not
resolve, it answers 404 "User not found". -/
theorem profile_stats
    (jwtV : String → Except String JwtUserPayload) (auth : Option String)
    (u : JwtUserPayload) (hu : getUserFromToken jwtV (extractToken auth) = some u)
    (s : Store) :
    (findUserById s u.id = none →
      V1.getProfile jwtV auth s = (HResp.err 404 "User not found", s)) ∧
    (∀ usr, findUserById s u.id = some usr →
      V1.getProfile jwtV auth s =
        (HResp.okProfile usr.email usr.image (userTasks s u.id).length
          ((userTasks s u.id).countP (fun t => t.isChecked)), s)) := by
  constructor
  · intro h
    simp [V1.getProfile, V1.getProfileAuthed, hu, h]
  · intro usr h
    simp [V1.getProfile, V1.getProfileAuthed, hu, h, List.countP_eq_length_filter]

/-- Witness for `profile_stats`: the spec's example — three stored tasks, two
checked — reports total 3 and completed 2. -/
theorem profile_stats_witness :
    findUserById storeProfile 1 = some ⟨1, "a@b", "h", "img"⟩ ∧
      V1.getProfile jwtVok authOk storeProfile
        = (HResp.okProfile "a@b" "img" 3 2, storeProfile) := by
  refine ⟨by decide, ?_⟩
  rw [(profile_stats jwtVok authOk ⟨1, "a@b"⟩ (by decide) storeProfile).2
    ⟨1, "a@b", "h", "img"⟩ (by decide)]
  decide

/-- C10: over every store, bearer header, verifier and request, each of the
four endpoints shared by the two variants — POST /tasks, GET /tasks,
PATCH /tasks/:id, GET /profile — produces the same resulting store and the
same payload or error message; the two differ only in the HTTP status
attached to errors. -/
theorem variants_equivalent
    (jwtV : String → Except String JwtUserPayload) (auth : Option String) (s : Store) :
    (∀ body, eraseCode (V1.postTasks jwtV auth body s).1
        = eraseCode (V2.postTasks jwtV auth body s).1 ∧
      (V1.postTasks jwtV auth body s).2 = (V2.postTasks jwtV auth body s).2) ∧
    (∀ date search, eraseCode (V1.getTasks jwtV auth date search s).1
        = eraseCode (V2.getTasks jwtV auth date search s).1 ∧
      (V1.getTasks jwtV auth date search s).2 = (V2.getTasks jwtV auth date search s).2) ∧
    (∀ id pb, eraseCode (V1.patchTask jwtV auth id pb s).1
        = eraseCode (V2.patchTask jwtV auth id pb s).1 ∧
      (V1.patchTask jwtV auth id pb s).2 = (V2.patchTask jwtV auth id pb s).2) ∧
    (eraseCode (V1.getProfile jwtV auth s).1 = eraseCode (V2.getProfile jwtV auth s).1 ∧
      (V1.getProfile jwtV auth s).2 = (V2.getProfile jwtV auth s).2) := by
  refine ⟨?_, ?_, ?_, ?_⟩
  · intro body
    rcases hb : checkCreateSchema body with _ | b
    · simp [V1.postTasks, V2.postTasks, hb, eraseCode]
    · rcases hu : getUserFromToken jwtV (extractToken auth) with _ | u
      · simp [V1.postTasks, V2.postTasks, hb, hu, eraseCode]
      · by_cases h1 : b.title = "" <;> by_cases h2 : b.date = "" <;>
          simp [V1.postTasks, V2.postTasks, V1.postTasksAuthed, V2.postTasksAuthed,
            hb, hu, h1, h2, eraseCode]
  · intro date search
    rcases hu : getUserFromToken jwtV (extractToken auth) with _ | u <;>
      simp [V1.getTasks, V2.getTasks, V1.getTasksAuthed, V2.getTasksAuthed, hu, eraseCode]
  · intro id pb
    rcases hu : getUserFromToken jwtV (extractToken auth) with _ | u
    · simp [V1.patchTask, V2.patchTask, hu, eraseCode]
    · rcases ht : findTaskById s id with _ | t
      · simp [V1.patchTask, V2.patchTask, V1.patchTaskAuthed, V2.patchTaskAuthed,
          hu, ht, eraseCode]
      · by_cases hown : t.userId = u.id
        · simp [V1.patchTask, V2.patchTask, V1.patchTaskAuthed, V2.patchTaskAuthed,
            prismaTaskUpdate, hu, ht, hown, eraseCode]
        · simp [V1.patchTask, V2.patchTask, V1.patchTaskAuthed, V2.patchTaskAuthed,
            hu, ht, hown, eraseCode]
  · rcases hu : getUserFromToken jwtV (extractToken auth) with _ | u
    · simp [V1.getProfile, V2.getProfile, hu, eraseCode]
    · rcases hus : findUserById s u.id with _ | usr <;>
        simp [V1.getProfile, V2.getProfile, V1.getProfileAuthed, V2.getProfileAuthed,
          hu, hus, eraseCode]

end SimpleTasks
